import Mathlib

/-!
Verification of `axlearn/common/input_base.py` and
`axlearn/common/flash_attention/tpu_attention_benchmark.py`.

The embedding is shallow: pytrees of tensors are represented by their
flattened (tree-path, leaf) list, sharding constraints are recorded on each
leaf, and the imperative benchmark script is modelled by the sequence of
observable events it performs together with the error it may raise.
-/

set_option autoImplicit false

namespace InputBase

/-- A partition spec (`jax.sharding.PartitionSpec`): either the distinguished
sentinel `PartitionSpec.UNCONSTRAINED`, or a per-dimension assignment of mesh
axis names.  Each dimension maps to the list of mesh axes it is sharded over
(`None` in Python corresponds to `[]`, a single axis name to a singleton). -/
inductive PSpec where
  | unconstrained
  | spec (dims : List (List String))
deriving DecidableEq, Repr

/-- A tensor leaf of an input batch.  Only the attributes the code under
verification inspects are carried: the shape (so `value.ndim` and
`value.shape[0]` are available) and the list of sharding constraints that
have been applied to it, oldest first. -/
structure Tensor where
  shape : List Nat
  constraints : List PSpec := []
deriving DecidableEq, Repr

/-- Number of dimensions of the tensor (`value.ndim`). -/
def Tensor.ndim (t : Tensor) : Nat := t.shape.length

/-- Modelled from the spec: `with_sharding_constraint` (from
`axlearn.common.utils`, not under src/) wraps the host framework's sharding
primitive; the spec treats the sharding substrate as out of scope, so the
embedding records the applied constraint on the tensor. -/
def with_sharding_constraint (t : Tensor) (s : PSpec) : Tensor :=
  { t with constraints := t.constraints ++ [s] }

/-- An input batch: a pytree of tensors, represented by its flattened list of
(tree path, leaf) pairs.  `tree_paths` (from `axlearn.common.utils`, not under
src/) assigns each leaf its tree path; `jax.tree.map(f, tree_paths(b), b)`
then maps `f` over the (path, leaf) pairs, which this representation makes
direct. -/
abbrev Batch := List (String × Tensor)

/-- A device mesh (`jax.sharding.Mesh`), given by its named axes and their
sizes. -/
structure Mesh where
  axes : List (String × Nat)
deriving DecidableEq, Repr

/-- `mesh.empty`. -/
def Mesh.empty (m : Mesh) : Bool := m.axes.isEmpty

/-- `mesh.size`: the total number of devices, the product of the axis sizes. -/
def Mesh.size (m : Mesh) : Nat := (m.axes.map Prod.snd).prod

/-- `mesh.shape[axis]`: the size of a named mesh axis. -/
def Mesh.axisSize (m : Mesh) (a : String) : Nat := (m.axes.lookup a).getD 1

/-- A `(path, rank)` matching rule (`PathAndRank`).  A compiled path regex is
embedded as its full-match predicate on paths (`re.fullmatch(path_regex, path)`
becomes `p path`); `none` matches everything, for the path as for the rank. -/
structure PathAndRank where
  path : Option (String → Bool)
  rank : Option Nat

/-- The `path_rank_to_partition` mapping passed to `partition_by_path_rank`,
in insertion order (Python dicts preserve insertion order). -/
abbrev Rules := List (PathAndRank × PSpec)

/-- The matching condition of the loop in `maybe_constrain`: the rule applies
when (`rank is None or value.ndim == rank`) and
(`path_regex is None or re.fullmatch(path_regex, path)`). -/
def ruleMatches (r : PathAndRank) (path : String) (ndim : Nat) : Bool :=
  (match r.rank with
    | none => true
    | some k => ndim == k)
  && (match r.path with
    | none => true
    | some p => p path)

/-- The ValueError message raised by `maybe_constrain` when no rules match. -/
def noRuleMsg (path : String) : String :=
  "No rules matched input_batch['" ++ path ++ "']. " ++
    "If you intended to leave the input unconstrained, " ++
    "specify `PartitionSpec.UNCONSTRAINED` explicitly."

/-- `maybe_constrain(path, value)` from `partition_by_path_rank`: scan the
rules in order; at the first matching rule, constrain the value by the rule's
partition spec unless it is `PartitionSpec.UNCONSTRAINED`, and return; if no
rule matches, raise `ValueError`. -/
def maybe_constrain (rules : Rules) (path : String) (value : Tensor) :
    Except String Tensor :=
  match rules with
  | [] => .error (noRuleMsg path)
  | (rule, partition_spec) :: rest =>
    if ruleMatches rule path value.ndim then
      if partition_spec = PSpec.unconstrained then
        .ok value
      else
        .ok (with_sharding_constraint value partition_spec)
    else
      maybe_constrain rest path value

/-- Mapping a fallible per-leaf function over a batch
(`jax.tree.map(maybe_constrain, tree_paths(input_batch), input_batch)`, which
propagates the first exception raised by `maybe_constrain`). -/
def mapBatchE (f : String → Tensor → Except String Tensor) : Batch → Except String Batch
  | [] => .ok []
  | (p, t) :: rest => do
    let t' ← f p t
    let rest' ← mapBatchE f rest
    pure ((p, t') :: rest')

/-- The partition function returned by `partition_by_path_rank`: a no-op when
not within a mesh (`mesh.empty or mesh.size == 1`), otherwise it maps
`maybe_constrain` over the (path, leaf) pairs of the batch.  The ambient
`thread_resources.env.physical_mesh` is passed explicitly. -/
def partition_by_path_rank (rules : Rules) (mesh : Mesh) (input_batch : Batch) :
    Except String Batch :=
  if mesh.empty || mesh.size == 1 then
    .ok input_batch
  else
    mapBatchE (maybe_constrain rules) input_batch

/-- The first rule of the mapping, in order, matching a given path and rank,
if any. -/
def firstMatch (rules : Rules) (path : String) (ndim : Nat) : Option PSpec :=
  match rules with
  | [] => none
  | (rule, s) :: rest =>
    if ruleMatches rule path ndim then some s else firstMatch rest path ndim

/-- The effect of the first matching rule on a leaf: constrained by the rule's
spec unless the spec is `UNCONSTRAINED`, in which case the leaf is unchanged;
leaves with no matching rule are returned unchanged (that case never arises
when the partition function returns successfully). -/
def applyFirstMatch (rules : Rules) (path : String) (t : Tensor) : Tensor :=
  match firstMatch rules path t.ndim with
  | none => t
  | some s => if s = PSpec.unconstrained then t else with_sharding_constraint t s

/-- Modelled from the spec: an `InputDispatcher` (from
`axlearn.common.input_dispatch`, not under src/) converts between logical and
physical batches; the spec treats its internals as out of scope, so the two
conversions are carried as opaque batch transformations. -/
structure InputDispatcher where
  physical_to_logical_batch : Batch → Batch
  logical_to_physical_batch : Batch → Batch

/-- The configuration-derived state of an `Input` module:
`self._partition_spec` (resolved, as the per-dimension axis lists of the
partition spec), the optional instantiated `input_dispatcher` child and the
optional instantiated `self._input_partitioner`.  An input partitioner is an
`InputPartitionFn`, a batch transformation. -/
structure InputConfig where
  partition_spec : List (List String)
  input_dispatcher : Option InputDispatcher
  input_partitioner : Option (Batch → Batch)

/-- `batch_partitions` in `constrain_batch_axis`: the product of the mesh
sizes of the axes in `jax.tree.leaves(self._partition_spec[0])` (the flattened
batch axis names of the partition spec). -/
def batch_partitions (mesh : Mesh) (partition_spec : List (List String)) : Nat :=
  ((partition_spec.headD []).map (Mesh.axisSize mesh)).prod

/-- `constrain_batch_axis(path, value)` in `Input.dispatch_global_batch`
constrains the value with `self._partition_spec` and returns it; the
divisibility check only logs a warning (see
`constrain_batch_axis_warns`). -/
def constrain_batch_axis (cfg : InputConfig) (path : String) (value : Tensor) :
    Tensor :=
  with_sharding_constraint value (PSpec.spec cfg.partition_spec)

/-- The condition under which `constrain_batch_axis` logs its warning: the
batch dimension `value.shape[0]` is not divisible by `batch_partitions`. -/
def constrain_batch_axis_warns (mesh : Mesh) (cfg : InputConfig) (path : String)
    (value : Tensor) : Bool :=
  value.shape.headD 0 % batch_partitions mesh cfg.partition_spec != 0

/-- `jax.tree.map(constrain_batch_axis, tree_paths(b), b)`. -/
def constrainBatchAxisAll (cfg : InputConfig) (b : Batch) : Batch :=
  b.map (fun pt => (pt.1, constrain_batch_axis cfg pt.1 pt.2))

/-- `Input.dispatch_global_batch`.  `dispatch_input_batch` (from
`axlearn.common.utils`, not under src/) is passed as an opaque parameter,
applied to the batch and `batch_axis_names=self._partition_spec[0]`. -/
def dispatch_global_batch (cfg : InputConfig)
    (dispatch_input_batch : Batch → List String → Batch)
    (global_physical_batch : Batch) : Batch :=
  let global_logical_batch :=
    match cfg.input_dispatcher with
    | some dispatcher =>
      dispatcher.physical_to_logical_batch
        (constrainBatchAxisAll cfg global_physical_batch)
    | none =>
      dispatch_input_batch global_physical_batch (cfg.partition_spec.headD [])
  let global_logical_batch := constrainBatchAxisAll cfg global_logical_batch
  match cfg.input_partitioner with
  | some input_partitioner => input_partitioner global_logical_batch
  | none => global_logical_batch

/-- The behaviour claim C2 describes, taken at its word: the physical batch is
constrained along the batch axes first, in both the dispatcher and the
`dispatch_input_batch` branch, before being converted to a logical batch. -/
def dispatch_global_batch_claimed (cfg : InputConfig)
    (dispatch_input_batch : Batch → List String → Batch)
    (global_physical_batch : Batch) : Batch :=
  let constrained := constrainBatchAxisAll cfg global_physical_batch
  let global_logical_batch :=
    match cfg.input_dispatcher with
    | some dispatcher => dispatcher.physical_to_logical_batch constrained
    | none => dispatch_input_batch constrained (cfg.partition_spec.headD [])
  let global_logical_batch := constrainBatchAxisAll cfg global_logical_batch
  match cfg.input_partitioner with
  | some input_partitioner => input_partitioner global_logical_batch
  | none => global_logical_batch

/-- Application of the optional configured `input_partitioner` to a batch, the
final step of `dispatch_global_batch`. -/
def applyPartitioner (cfg : InputConfig) (b : Batch) : Batch :=
  match cfg.input_partitioner with
  | some input_partitioner => input_partitioner b
  | none => b

/-- `Input.batches(it)`: for each batch produced by the iterator (modelled as
the list of batches it yields), convert it via `as_numpy_array` (from
`axlearn.common.utils`, not under src/, passed as an opaque parameter) and,
when an `input_dispatcher` child is configured, further apply its
`logical_to_physical_batch`; yield the results in order. -/
def batches (cfg : InputConfig) (as_numpy_array : Batch → Batch)
    (it : List Batch) : List Batch :=
  match it with
  | [] => []
  | input_batch :: rest =>
    let input_batch := as_numpy_array input_batch
    let input_batch :=
      match cfg.input_dispatcher with
      | some dispatcher => dispatcher.logical_to_physical_batch input_batch
      | none => input_batch
    input_batch :: batches cfg as_numpy_array rest

/-- A concrete rule set used to evaluate the theorems: constrain every rank-1
tensor by `PartitionSpec("data")`. -/
def exRules : Rules := [(⟨none, some 1⟩, PSpec.spec [["data"]])]

/-- A concrete 2-device mesh with a single "data" axis. -/
def exMesh : Mesh := ⟨[("data", 2)]⟩

/-- A concrete single-leaf batch with one rank-1 tensor of shape (8,). -/
def exBatch : Batch := [("input_ids", { shape := [8] })]

/-- The expected result of partitioning `exBatch` by `exRules`. -/
def exBatch' : Batch :=
  [("input_ids", { shape := [8], constraints := [PSpec.spec [["data"]]] })]

/-- A concrete rule set matching only rank-2 tensors (so it matches nothing
in `exBatch`). -/
def exRulesRank2 : Rules := [(⟨none, some 2⟩, PSpec.spec [["data"], ["seq"]])]

/-- A concrete input configuration with neither dispatcher nor partitioner. -/
def exCfgPlain : InputConfig :=
  { partition_spec := [["data"]], input_dispatcher := none,
    input_partitioner := none }

/-- A concrete dispatcher whose conversions are the identity. -/
def exDispatcher : InputDispatcher :=
  { physical_to_logical_batch := fun b => b,
    logical_to_physical_batch := fun b => b }

/-- A concrete input configuration with a dispatcher and a partitioner. -/
def exCfgFull : InputConfig :=
  { partition_spec := [["data"]], input_dispatcher := some exDispatcher,
    input_partitioner := some (fun b => b) }

/-- A concrete stand-in for `dispatch_input_batch` that returns the batch
unchanged. -/
def exDib : Batch → List String → Batch := fun b _ => b

/-- A concrete single-leaf batch whose batch dimension (3) is not divisible
by the 2 batch partitions of `exMesh` under `exCfgPlain`. -/
def exBatchOdd : Batch := [("input_ids", { shape := [3] })]

end InputBase

namespace TpuBench

/-- A KV cache class passed as `kv_cache_type` (the classes `KVCache` and
`PagedKVCache`, or any other subclass of `BaseKVCache`, identified by name);
the `kv_cache_type` argument itself is an `Option` of this, `none` standing
for Python's `None`. -/
inductive KVCacheType where
  | kvCache
  | pagedKVCache
  | other (name : String)
deriving DecidableEq, Repr

/-- The observable steps `_benchmark` performs, in order: generating attention
data, timing a jitted call via `_time_call`, and printing a timing report. -/
inductive BenchEvent where
  | generate_attention_data
  | generate_paged_attention_data
  | time_ref_fwd
  | time_flash_fwd
  | print_fwd_times
  | time_ref_bwd
  | time_flash_bwd
  | print_bwd_times
deriving DecidableEq, Repr

/-- A per-model-size configuration from `_BENCHMARK_CONFIGS`. -/
structure BenchConfig where
  num_heads : Nat
  per_head_dim : Nat
  num_kv_heads : Option Nat := none
deriving DecidableEq, Repr

/-- The `_BENCHMARK_CONFIGS` table (the commented-out `539.5b` entry is not
part of the dict). -/
def _BENCHMARK_CONFIGS : List (String × BenchConfig) :=
  [("1.2b", { num_heads := 16, per_head_dim := 128 }),
   ("12.6b", { num_heads := 40, per_head_dim := 128 }),
   ("29.6b", { num_heads := 8, num_kv_heads := some 1, per_head_dim := 128 }),
   ("65.2b", { num_heads := 72, per_head_dim := 128 }),
   ("134b", { num_heads := 88, per_head_dim := 128 }),
   ("261.7b", { num_heads := 110, per_head_dim := 128 })]

/-- The result of running a fragment of the script: the events it performed,
in order, and the uncaught exception it raised, if any. -/
abbrev RunResult := List BenchEvent × Option String

/-- `_benchmark`, reduced to its observable behaviour: which exceptions it
raises and which data-generation, timing and reporting steps it performs.
It first rejects any `kv_cache_type` other than `None`, `KVCache` and
`PagedKVCache` with `NotImplementedError`; for `PagedKVCache` it asserts
`page_size is not None` before generating paged attention data, otherwise it
generates plain attention data; it then times and reports the forward passes
of the reference and flash implementations, and, only when `kv_cache_type` is
`None`, also times and reports both backward passes. -/
def _benchmark (cfg : BenchConfig) (kv_cache_type : Option KVCacheType)
    (page_size : Option Nat) : RunResult :=
  if ¬(kv_cache_type = none ∨ kv_cache_type = some KVCacheType.kvCache ∨
        kv_cache_type = some KVCacheType.pagedKVCache) then
    ([], some ("NotImplementedError: This benchmark doesn't support " ++
      "kv_cache_type yet."))
  else if kv_cache_type = some KVCacheType.pagedKVCache ∧ page_size = none then
    ([], some "AssertionError")
  else
    let genEvent :=
      if kv_cache_type = some KVCacheType.pagedKVCache then
        BenchEvent.generate_paged_attention_data
      else
        BenchEvent.generate_attention_data
    (genEvent ::
      [BenchEvent.time_ref_fwd, BenchEvent.time_flash_fwd,
       BenchEvent.print_fwd_times] ++
      (if kv_cache_type = none then
        [BenchEvent.time_ref_bwd, BenchEvent.time_flash_bwd,
         BenchEvent.print_bwd_times]
      else []), none)

/-- The `if __name__ == "__main__":` block: assert that the default JAX
backend is "tpu", then run `_benchmark` on every entry of
`_BENCHMARK_CONFIGS` with `kv_cache_type=KVCache` (and default `page_size`,
i.e. `None`); the result pairs each configuration name with the run of its
benchmark, alongside the exception of the main block itself, if any. -/
def main_script (backend : String) :
    List (String × RunResult) × Option String :=
  if backend ≠ "tpu" then
    ([], some "AssertionError: Benchmarking requires a TPU backend.")
  else
    (_BENCHMARK_CONFIGS.map
      (fun nc => (nc.1, _benchmark nc.2 (some KVCacheType.kvCache) none)),
     none)

/-- The state threaded through `_time_call`: how many times `fn` has been
invoked so far and the current value of `time.perf_counter()`, with time
measured as a rational. -/
structure TimerState where
  calls : Nat
  now : ℚ
deriving DecidableEq, Repr

/-- One `fn().block_until_ready()` call: `dur k` is the wall-clock duration of
the (0-indexed) `k`-th invocation of `fn` in the program run. -/
def runFn (dur : Nat → ℚ) (s : TimerState) : TimerState :=
  { calls := s.calls + 1, now := s.now + dur s.calls }

/-- The `for _ in range(num_iters): fn().block_until_ready()` loop. -/
def iterateTimed (dur : Nat → ℚ) : Nat → TimerState → TimerState
  | 0, s => s
  | n + 1, s => iterateTimed dur n (runFn dur s)

/-- `_time_call(fn, num_iters=...)`: one warmup invocation of `fn`, then
`tic = time.perf_counter()`, `num_iters` timed invocations,
`toc = time.perf_counter()`, returning `(toc - tic) / num_iters` (and the
final timer state). -/
def _time_call (dur : Nat → ℚ) (num_iters : Nat) (s : TimerState) :
    ℚ × TimerState :=
  let s1 := runFn dur s
  let tic := s1.now
  let s2 := iterateTimed dur num_iters s1
  let toc := s2.now
  ((toc - tic) / (num_iters : ℚ), s2)

/-- A concrete benchmark configuration (the `1.2b` entry). -/
def exBenchCfg : BenchConfig := { num_heads := 16, per_head_dim := 128 }

/-- The events of a successful `_benchmark` run with `kv_cache_type=None`. -/
def exBenchEvents : List BenchEvent :=
  [BenchEvent.generate_attention_data, BenchEvent.time_ref_fwd,
   BenchEvent.time_flash_fwd, BenchEvent.print_fwd_times,
   BenchEvent.time_ref_bwd, BenchEvent.time_flash_bwd,
   BenchEvent.print_bwd_times]

end TpuBench

namespace InputBase

theorem maybe_constrain_eq_firstMatch (rules : Rules) (path : String) (t : Tensor) :
    maybe_constrain rules path t =
      match firstMatch rules path t.ndim with
      | none => .error (noRuleMsg path)
      | some s =>
        .ok (if s = PSpec.unconstrained then t else with_sharding_constraint t s) := by
  induction rules with
  | nil => rfl
  | cons hd tl ih =>
    obtain ⟨rule, s⟩ := hd
    simp only [maybe_constrain, firstMatch]
    by_cases h : ruleMatches rule path t.ndim
    · simp [h]
      by_cases hs : s = PSpec.unconstrained <;> simp [hs]
    · simp [h, ih]

theorem mapBatchE_ok_iff (f : String → Tensor → Except String Tensor) (b : Batch)
    (b' : Batch) (hok : mapBatchE f b = .ok b') :
    ∀ pt ∈ b, ∃ t', f pt.1 pt.2 = .ok t' := by
  induction b generalizing b' with
  | nil => intro pt h; cases h
  | cons hd tl ih =>
    obtain ⟨p, t⟩ := hd
    intro pt hmem
    simp only [mapBatchE, bind, Except.bind] at hok
    cases hf : f p t with
    | error e => rw [hf] at hok; cases hok
    | ok t' =>
      rw [hf] at hok
      cases hrest : mapBatchE f tl with
      | error e => rw [hrest] at hok; cases hok
      | ok tl' =>
        rw [List.mem_cons] at hmem
        rcases hmem with rfl | hmem
        · exact ⟨t', hf⟩
        · exact ih tl' hrest pt hmem

theorem mapBatchE_ok_map (f : String → Tensor → Except String Tensor)
    (g : String → Tensor → Tensor)
    (hfg : ∀ p t t', f p t = .ok t' → t' = g p t)
    (b b' : Batch) (hok : mapBatchE f b = .ok b') :
    b' = b.map (fun pt => (pt.1, g pt.1 pt.2)) := by
  induction b generalizing b' with
  | nil => cases hok; rfl
  | cons hd tl ih =>
    obtain ⟨p, t⟩ := hd
    simp only [mapBatchE, bind, Except.bind] at hok
    cases hf : f p t with
    | error e => rw [hf] at hok; cases hok
    | ok t' =>
      rw [hf] at hok
      cases hrest : mapBatchE f tl with
      | error e => rw [hrest] at hok; cases hok
      | ok tl' =>
        rw [hrest] at hok
        simp only [pure, Except.pure, Except.ok.injEq] at hok
        subst hok
        simp [List.map, hfg p t t' hf, ih tl' hrest]

end InputBase

namespace TpuBench

theorem iterateTimed_calls (dur : Nat → ℚ) (n : Nat) (s : TimerState) :
    (iterateTimed dur n s).calls = s.calls + n := by
  induction n generalizing s with
  | zero => rfl
  | succ k ih =>
    simp only [iterateTimed, ih, runFn]
    omega

theorem iterateTimed_now (dur : Nat → ℚ) (n : Nat) (s : TimerState) :
    (iterateTimed dur n s).now =
      s.now + ∑ i ∈ Finset.range n, dur (s.calls + i) := by
  induction n generalizing s with
  | zero => simp [iterateTimed]
  | succ k ih =>
    simp only [iterateTimed, ih, runFn]
    rw [Finset.sum_range_succ' (fun i => dur (s.calls + i)) k]
    have h : ∑ i ∈ Finset.range k, dur (s.calls + 1 + i)
        = ∑ i ∈ Finset.range k, dur (s.calls + (i + 1)) := by
      apply Finset.sum_congr rfl
      intro i _
      congr 1
      omega
    rw [h, Nat.add_zero]
    ring

end TpuBench

namespace InputBase

/-- C1: within a non-empty device mesh of size greater than 1, whenever the
function returned by `partition_by_path_rank` returns a batch, every leaf of
the input batch has a matching rule, and the corresponding output leaf is the
input leaf constrained according to the first rule, in mapping order, whose
path pattern is `None` or full-matches the leaf's tree path and whose rank is
`None` or equals the leaf's number of dimensions; a matched
`PartitionSpec.UNCONSTRAINED` leaves the leaf unchanged (this is what
`applyFirstMatch` computes). -/
theorem C1_partition_first_matching_rule (rules : Rules) (mesh : Mesh)
    (batch batch' : Batch)
    (hempty : mesh.empty = false) (hsize : 1 < mesh.size)
    (hok : partition_by_path_rank rules mesh batch = .ok batch') :
    (∀ pt ∈ batch, (firstMatch rules pt.1 pt.2.ndim).isSome) ∧
      batch' = batch.map (fun pt => (pt.1, applyFirstMatch rules pt.1 pt.2)) := by
  have hcond : (mesh.empty || mesh.size == 1) = false := by
    rw [hempty]
    simp only [Bool.false_or, beq_eq_false_iff_ne, ne_eq]
    omega
  unfold partition_by_path_rank at hok
  rw [hcond] at hok
  simp only [Bool.false_eq_true, if_false] at hok
  constructor
  · intro pt hmem
    obtain ⟨t', ht'⟩ := mapBatchE_ok_iff _ _ _ hok pt hmem
    rw [maybe_constrain_eq_firstMatch] at ht'
    cases hfm : firstMatch rules pt.1 pt.2.ndim with
    | none => rw [hfm] at ht'; cases ht'
    | some s => simp [hfm]
  · refine mapBatchE_ok_map _ _ ?_ _ _ hok
    intro p t t' hft
    rw [maybe_constrain_eq_firstMatch] at hft
    unfold applyFirstMatch
    cases hfm : firstMatch rules p t.ndim with
    | none => rw [hfm] at hft; cases hft
    | some s =>
      rw [hfm] at hft
      simp only [Except.ok.injEq] at hft
      exact hft.symm

/-- Witness for C1 at a concrete mesh, rule set and batch. -/
theorem C1_partition_first_matching_rule_witness :
    (∀ pt ∈ exBatch, (firstMatch exRules pt.1 pt.2.ndim).isSome) ∧
      exBatch' = exBatch.map (fun pt => (pt.1, applyFirstMatch exRules pt.1 pt.2)) :=
  C1_partition_first_matching_rule exRules exMesh exBatch exBatch'
    rfl (by decide) rfl

/-- C4: within a non-empty device mesh of size greater than 1, if some leaf of
the batch matches none of the rules, the function returned by
`partition_by_path_rank` raises `ValueError` instead of returning a batch. -/
theorem C4_no_matching_rule_raises (rules : Rules) (mesh : Mesh) (batch : Batch)
    (hempty : mesh.empty = false) (hsize : 1 < mesh.size)
    (pt : String × Tensor) (hmem : pt ∈ batch)
    (hnone : firstMatch rules pt.1 pt.2.ndim = none) :
    ∃ msg, partition_by_path_rank rules mesh batch = .error msg := by
  have hcond : (mesh.empty || mesh.size == 1) = false := by
    rw [hempty]
    simp only [Bool.false_or, beq_eq_false_iff_ne, ne_eq]
    omega
  unfold partition_by_path_rank
  rw [hcond]
  simp only [Bool.false_eq_true, if_false]
  cases hmap : mapBatchE (maybe_constrain rules) batch with
  | error e => exact ⟨e, rfl⟩
  | ok b' =>
    exfalso
    obtain ⟨t', ht'⟩ := mapBatchE_ok_iff _ _ _ hmap pt hmem
    rw [maybe_constrain_eq_firstMatch, hnone] at ht'
    cases ht'

/-- Witness for C4: a rank-2-only rule set leaves the rank-1 leaf of
`exBatch` unmatched. -/
theorem C4_no_matching_rule_raises_witness :
    ∃ msg, partition_by_path_rank exRulesRank2 exMesh exBatch = .error msg :=
  C4_no_matching_rule_raises exRulesRank2 exMesh exBatch rfl (by decide)
    ("input_ids", { shape := [8] }) (List.Mem.head _) rfl

/-- C5: when the ambient physical mesh is empty or has size 1, the function
returned by `partition_by_path_rank` returns the input batch unchanged and
never raises, whatever the rules. -/
theorem C5_no_mesh_identity (rules : Rules) (mesh : Mesh) (batch : Batch)
    (h : mesh.empty = true ∨ mesh.size = 1) :
    partition_by_path_rank rules mesh batch = .ok batch := by
  unfold partition_by_path_rank
  rcases h with h | h <;> simp [h]

/-- Witness for C5: the empty mesh with rules that match nothing in the
batch, which is still returned unchanged. -/
theorem C5_no_mesh_identity_witness :
    partition_by_path_rank exRulesRank2 ⟨[]⟩ exBatch = .ok exBatch :=
  C5_no_mesh_identity exRulesRank2 ⟨[]⟩ exBatch (Or.inl rfl)

end InputBase

namespace InputBase

/-- Counterexample to C2 as stated: with no `input_dispatcher` configured, the
raw physical batch is passed to `dispatch_input_batch`; it is not constrained
along the batch axes first, so the code's result differs from the claimed
composition (here `dispatch_input_batch` is the identity, and the claimed
composition would constrain the single leaf twice instead of once). -/
theorem C2_dispatch_order_counterexample :
    dispatch_global_batch exCfgPlain exDib exBatch ≠
      dispatch_global_batch_claimed exCfgPlain exDib exBatch := by
  decide

/-- C2 (amended): `Input.dispatch_global_batch` constrains every leaf of the
physical batch along the batch axes *only when* an `input_dispatcher` is
configured, in which case it then converts the constrained physical batch via
`input_dispatcher.physical_to_logical_batch`; without a dispatcher it passes
the raw physical batch to `dispatch_input_batch` with the batch axis names.
In both cases it then constrains every leaf of the resulting logical batch and
applies the configured `input_partitioner` last; the returned value is the
`input_partitioner`'s output when one is configured. -/
theorem C2_dispatch_global_batch_order (cfg : InputConfig)
    (dib : Batch → List String → Batch) (gpb : Batch) :
    (∀ d, cfg.input_dispatcher = some d →
      dispatch_global_batch cfg dib gpb =
        applyPartitioner cfg
          (constrainBatchAxisAll cfg
            (d.physical_to_logical_batch (constrainBatchAxisAll cfg gpb)))) ∧
    (cfg.input_dispatcher = none →
      dispatch_global_batch cfg dib gpb =
        applyPartitioner cfg
          (constrainBatchAxisAll cfg (dib gpb (cfg.partition_spec.headD [])))) ∧
    (∀ f, cfg.input_partitioner = some f →
      ∃ glb, dispatch_global_batch cfg dib gpb = f glb) := by
  refine ⟨?_, ?_, ?_⟩
  · intro d hd
    simp [dispatch_global_batch, applyPartitioner, hd]
  · intro hd
    simp [dispatch_global_batch, applyPartitioner, hd]
  · intro f hf
    cases hd : cfg.input_dispatcher with
    | none =>
      exact ⟨constrainBatchAxisAll cfg (dib gpb (cfg.partition_spec.headD [])),
        by simp [dispatch_global_batch, hd, hf]⟩
    | some d =>
      exact ⟨constrainBatchAxisAll cfg
          (d.physical_to_logical_batch (constrainBatchAxisAll cfg gpb)),
        by simp [dispatch_global_batch, hd, hf]⟩

/-- Witness for the amended C2 at a concrete configuration with a dispatcher
and a partitioner. -/
theorem C2_dispatch_global_batch_order_witness :
    dispatch_global_batch exCfgFull exDib exBatch =
      applyPartitioner exCfgFull
        (constrainBatchAxisAll exCfgFull
          (exDispatcher.physical_to_logical_batch
            (constrainBatchAxisAll exCfgFull exBatch))) :=
  (C2_dispatch_global_batch_order exCfgFull exDib exBatch).1 exDispatcher rfl

/-- C3: a leaf whose batch dimension is not divisible by the product of the
mesh sizes of the configured batch axes still gets the batch-axis sharding
constraint: `constrain_batch_axis` logs a warning, does not raise, and
constrains the leaf exactly as it constrains any (e.g. divisible) leaf. -/
theorem C3_nondivisible_warns_still_constrains (mesh : Mesh) (cfg : InputConfig)
    (path : String) (value : Tensor)
    (h : value.shape.headD 0 % batch_partitions mesh cfg.partition_spec ≠ 0) :
    constrain_batch_axis_warns mesh cfg path value = true ∧
      constrain_batch_axis cfg path value =
        with_sharding_constraint value (PSpec.spec cfg.partition_spec) ∧
      ∀ path' value', constrain_batch_axis cfg path' value' =
        with_sharding_constraint value' (PSpec.spec cfg.partition_spec) := by
  refine ⟨?_, rfl, fun path' value' => rfl⟩
  simp only [constrain_batch_axis_warns, bne_iff_ne, ne_eq]
  exact h

/-- Witness for C3: shape (3,) over 2 batch partitions. -/
theorem C3_nondivisible_warns_still_constrains_witness :
    constrain_batch_axis_warns exMesh exCfgPlain "input_ids"
        { shape := [3] } = true ∧
      constrain_batch_axis exCfgPlain "input_ids" { shape := [3] } =
        with_sharding_constraint { shape := [3] }
          (PSpec.spec exCfgPlain.partition_spec) ∧
      ∀ path' value', constrain_batch_axis exCfgPlain path' value' =
        with_sharding_constraint value' (PSpec.spec exCfgPlain.partition_spec) :=
  C3_nondivisible_warns_still_constrains exMesh exCfgPlain "input_ids"
    { shape := [3] } (by decide)

/-- C6: `Input.batches` yields exactly one output batch per input batch, in
order; each output is the input converted by `as_numpy_array` and, exactly
when an `input_dispatcher` is configured, further transformed by its
`logical_to_physical_batch`. -/
theorem C6_batches_one_to_one (cfg : InputConfig) (as_numpy_array : Batch → Batch)
    (it : List Batch) :
    (batches cfg as_numpy_array it).length = it.length ∧
      batches cfg as_numpy_array it =
        it.map (fun b =>
          match cfg.input_dispatcher with
          | some d => d.logical_to_physical_batch (as_numpy_array b)
          | none => as_numpy_array b) := by
  have hmap : batches cfg as_numpy_array it =
      it.map (fun b =>
        match cfg.input_dispatcher with
        | some d => d.logical_to_physical_batch (as_numpy_array b)
        | none => as_numpy_array b) := by
    induction it with
    | nil => rfl
    | cons b rest ih =>
      cases hd : cfg.input_dispatcher <;> simp [batches, hd, ih]
  exact ⟨by rw [hmap, List.length_map], hmap⟩

end InputBase

namespace TpuBench

/-- C7: every `_benchmark` run that raises no exception times and reports the
forward pass of both the reference and the flash implementation, and times and
reports the backward passes of both exactly when `kv_cache_type` is `None`;
the script's main loop passes `kv_cache_type=KVCache` for every configuration,
so each of its runs reports forward times and no backward times. -/
theorem C7_fwd_always_bwd_iff_no_cache :
    (∀ (cfg : BenchConfig) (kv : Option KVCacheType) (ps : Option Nat)
        (evs : List BenchEvent), _benchmark cfg kv ps = (evs, none) →
      (BenchEvent.time_ref_fwd ∈ evs ∧ BenchEvent.time_flash_fwd ∈ evs ∧
        BenchEvent.print_fwd_times ∈ evs) ∧
      ((BenchEvent.time_ref_bwd ∈ evs ∧ BenchEvent.time_flash_bwd ∈ evs ∧
          BenchEvent.print_bwd_times ∈ evs) ↔ kv = none)) ∧
    (∀ r ∈ (main_script "tpu").1,
      r.2.2 = none ∧ BenchEvent.time_ref_fwd ∈ r.2.1 ∧
        BenchEvent.time_flash_fwd ∈ r.2.1 ∧
        BenchEvent.print_fwd_times ∈ r.2.1 ∧
        BenchEvent.time_ref_bwd ∉ r.2.1 ∧ BenchEvent.time_flash_bwd ∉ r.2.1 ∧
        BenchEvent.print_bwd_times ∉ r.2.1) := by
  constructor
  · rintro cfg kv ps evs hok
    rcases kv with _ | k
    · simp [_benchmark] at hok
      subst hok
      decide
    · cases k with
      | kvCache =>
        simp [_benchmark] at hok
        subst hok
        decide
      | pagedKVCache =>
        rcases ps with _ | psz
        · simp [_benchmark] at hok
        · simp [_benchmark] at hok
          subst hok
          decide
      | other name =>
        simp [_benchmark] at hok
  · decide

/-- Witness for C7 at the `1.2b` configuration with `kv_cache_type=None`. -/
theorem C7_fwd_always_bwd_iff_no_cache_witness :
    (BenchEvent.time_ref_fwd ∈ exBenchEvents ∧
      BenchEvent.time_flash_fwd ∈ exBenchEvents ∧
      BenchEvent.print_fwd_times ∈ exBenchEvents) ∧
    ((BenchEvent.time_ref_bwd ∈ exBenchEvents ∧
        BenchEvent.time_flash_bwd ∈ exBenchEvents ∧
        BenchEvent.print_bwd_times ∈ exBenchEvents) ↔
      (none : Option KVCacheType) = none) :=
  C7_fwd_always_bwd_iff_no_cache.1 exBenchCfg none none exBenchEvents rfl

/-- C8: the main block asserts that the default JAX backend is "tpu" before
benchmarking anything; on any other backend it fails with `AssertionError`
having run no benchmark configuration. -/
theorem C8_requires_tpu_backend (backend : String) (h : backend ≠ "tpu") :
    main_script backend =
      ([], some "AssertionError: Benchmarking requires a TPU backend.") := by
  simp [main_script, h]

/-- Witness for C8 on the "cpu" backend. -/
theorem C8_requires_tpu_backend_witness :
    main_script "cpu" =
      ([], some "AssertionError: Benchmarking requires a TPU backend.") :=
  C8_requires_tpu_backend "cpu" (by decide)

/-- C9: for every `num_iters >= 1`, `_time_call` invokes `fn` exactly
`num_iters + 1` times (one untimed warmup call, then `num_iters` timed calls)
and returns the elapsed time of the timed calls divided by `num_iters`; with
the default `num_iters=5` the call count rises by 6. -/
theorem C9_time_call_iterations (dur : Nat → ℚ) (num_iters : Nat)
    (s : TimerState) (h : 1 ≤ num_iters) :
    (_time_call dur num_iters s).2.calls = s.calls + (num_iters + 1) ∧
      (_time_call dur num_iters s).1 =
        (∑ i ∈ Finset.range num_iters, dur (s.calls + 1 + i)) /
          (num_iters : ℚ) := by
  constructor
  · show (iterateTimed dur num_iters (runFn dur s)).calls = s.calls + (num_iters + 1)
    rw [iterateTimed_calls]
    simp only [runFn]
    omega
  · show ((iterateTimed dur num_iters (runFn dur s)).now - (runFn dur s).now) /
        (num_iters : ℚ) =
      (∑ i ∈ Finset.range num_iters, dur (s.calls + 1 + i)) / (num_iters : ℚ)
    rw [iterateTimed_now]
    simp [runFn, add_sub_cancel_left]

/-- Witness for C9 at the default `num_iters=5`: six invocations in total. -/
theorem C9_time_call_iterations_witness :
    (_time_call (fun k => (k : ℚ)) 5 ⟨0, 0⟩).2.calls = 0 + (5 + 1) ∧
      (_time_call (fun k => (k : ℚ)) 5 ⟨0, 0⟩).1 =
        (∑ i ∈ Finset.range 5, ((0 + 1 + i : ℕ) : ℚ)) / ((5 : ℕ) : ℚ) :=
  C9_time_call_iterations (fun k => (k : ℚ)) 5 ⟨0, 0⟩ (by decide)

/-- C10: `_benchmark` raises `NotImplementedError` for every `kv_cache_type`
other than `None`, `KVCache` and `PagedKVCache`, and fails its
`page_size is not None` assertion for `PagedKVCache` without a page size; in
both cases no attention data is generated (the event list is empty). -/
theorem C10_unsupported_cache_type (cfg : BenchConfig) :
    (∀ (name : String) (ps : Option Nat),
      _benchmark cfg (some (KVCacheType.other name)) ps =
        ([], some ("NotImplementedError: This benchmark doesn't support " ++
          "kv_cache_type yet."))) ∧
      _benchmark cfg (some KVCacheType.pagedKVCache) none =
        ([], some "AssertionError") := by
  constructor
  · intro name ps
    simp [_benchmark]
  · simp [_benchmark]

end TpuBench
